import Mathlib

/-!
Verification of the per-guild playback coordinator of a discord music bot.

The development shallowly embeds the relevant parts of the source:

* Song and its playback-interval accounting (music_bot/song.py, class Song):
  record_start, record_stop, total_time_played, create_song_play.
  Timestamps are modelled as integers (seconds); datetime.now() becomes an
  explicit argument. itertools.zip_longest is modelled by zipLongest, and the
  TypeError raised by Python when a pair has a missing start is modelled by
  Option (total_time_played returns none in that case).
* SongQueue (music_bot/song.py, class SongQueue, subclass of asyncio.Queue):
  parametric in the element type; maxsize 0 means unbounded, as in asyncio
  (SongQueue.__init__ calls super().__init__() with the default maxsize 0).
* AudioPlayer (music_bot/audio_player.py): modelled as a state machine APState
  with an explicit event alphabet.  The control loop play_audio has two phases:
  polling (blocked in song_queue.get) and awaiting (waiting on the
  play_next_song_event after issuing voice_client.play).  The completion
  callback play_next_song, the commands skip/pause/resume/stop and enqueueing
  are the events.  A completion callback (and the voice_client.stop() that a
  skip/stop issues, together with the callback it triggers) is taken as one
  atomic step, matching the cooperative single-owner scheduling described by
  the code; calling a method on a missing voice_client (None) is modelled as
  Except.error (Python AttributeError).
* StatsFactory (music_bot/stats.py): is_current_song_relevant,
  get_num_songs_played and get_total_duration over a list of persisted
  SongPlay rows and the live AudioPlayer state.
-/

namespace MusicBot

/-- A song, keeping the playback-accounting fields of music_bot/song.py
(class Song).  Discord metadata irrelevant to playback accounting (title,
urls, channel) is dropped; ids are numbers. -/
structure Song where
  id : Nat
  requesterId : Nat
  guildId : Nat
  timestampPlayed : Option Int
  timestampsStarted : List Int
  timestampsStopped : List Int
deriving DecidableEq, Repr

/-- A fresh Song: no play recorded yet (Song.__init__ sets timestamp_played
to None and both timestamp lists to []). -/
def Song.fresh (id requesterId guildId : Nat) : Song :=
  ⟨id, requesterId, guildId, none, [], []⟩

/-- Song.record_start: appends now to timestamps_started and sets
timestamp_played on the first start. -/
def Song.record_start (s : Song) (now : Int) : Song :=
  { s with
    timestampPlayed := match s.timestampPlayed with
      | none => some now
      | some t => some t
    timestampsStarted := s.timestampsStarted ++ [now] }

/-- Song.record_stop: appends now to timestamps_stopped. -/
def Song.record_stop (s : Song) (now : Int) : Song :=
  { s with timestampsStopped := s.timestampsStopped ++ [now] }

/-- itertools.zip_longest over two lists, with fillvalue None. -/
def zipLongest : List α → List β → List (Option α × Option β)
  | [], bs => bs.map (fun b => (none, some b))
  | a :: as, [] => (some a, none) :: zipLongest as []
  | a :: as, b :: bs => (some a, some b) :: zipLongest as bs

/-- One term of the sum in Song.total_time_played:
(stop or datetime.now()) - start.  A missing stop falls back to now
(stop or ...); a missing start is a Python TypeError, modelled as none. -/
def interval_time (now : Int) : Option Int × Option Int → Option Int
  | (some start, stop) => some (stop.getD now - start)
  | (none, _) => none

/-- The sum over the list comprehension in Song.total_time_played: a
TypeError anywhere (a pair with a missing start) fails the whole sum. -/
def sum_intervals (now : Int) : List (Option Int × Option Int) → Option Int
  | [] => some 0
  | p :: ps =>
    match interval_time now p, sum_intervals now ps with
    | some x, some rest => some (x + rest)
    | _, _ => none

/-- Song.total_time_played: sums (stop or now) - start over
zip_longest(timestamps_started, timestamps_stopped); none models the
TypeError raised when a pair has no start. -/
def Song.total_time_played (s : Song) (now : Int) : Option Int :=
  sum_intervals now (zipLongest s.timestampsStarted s.timestampsStopped)

/-- A persisted TrackPlayed row (music_bot/usage_tables.py SongPlay),
keeping the fields the statistics queries filter and aggregate on. -/
structure SongPlay where
  guild_id : Nat
  requester_id : Nat
  song_id : Nat
  duration : Int
deriving DecidableEq, Repr

/-- Song.create_song_play: the duration persisted is
total_time_played.total_seconds(); none propagates the total_time_played
failure. -/
def Song.create_song_play (s : Song) (now : Int) : Option SongPlay :=
  (s.total_time_played now).map
    (fun d => ⟨s.guildId, s.requesterId, s.id, d⟩)

/-- AudioPlayer.record_song_play_to_db with enable_usage_database on:
unconditionally calls song.record_stop() and then song.create_song_play().
Returns the mutated song together with the row to insert. -/
def record_song_play_to_db (s : Song) (now : Int) : Song × Option SongPlay :=
  let s2 := s.record_stop now
  (s2, s2.create_song_play now)

/-- asyncio.QueueFull. -/
inductive QueueFull
  | mk
deriving DecidableEq, Repr

/-- SongQueue (music_bot/song.py), a subclass of asyncio.Queue, parametric in
the element type.  queue is the underlying deque (head = next song out),
maxsize the inherited asyncio.Queue._maxsize, is_looping the loop flag. -/
structure SongQueue (α : Type) where
  queue : List α
  maxsize : Nat
  is_looping : Bool
deriving DecidableEq, Repr

/-- SongQueue.__init__: super().__init__() leaves the default maxsize 0
(unbounded, by the asyncio convention) and is_looping starts False. -/
def SongQueue.init (α : Type) : SongQueue α := ⟨[], 0, false⟩

/-- asyncio.Queue.qsize. -/
def SongQueue.qsize (q : SongQueue α) : Nat := q.queue.length

/-- asyncio.Queue.full: with maxsize <= 0 the queue is never full. -/
def SongQueue.full (q : SongQueue α) : Bool :=
  if q.maxsize ≤ 0 then false else decide (q.qsize ≥ q.maxsize)

/-- SongQueue._put: appendleft when play_next, append otherwise. -/
def SongQueue.putInner (q : SongQueue α) (item : α) (play_next : Bool) :
    SongQueue α :=
  if play_next then { q with queue := item :: q.queue }
  else { q with queue := q.queue ++ [item] }

/-- SongQueue.put_nowait: raises QueueFull when full, otherwise _put. -/
def SongQueue.put_nowait (q : SongQueue α) (item : α) (play_next : Bool) :
    Except QueueFull (SongQueue α) :=
  if q.full then .error .mk else .ok (q.putInner item play_next)

/-- SongQueue._extend: extendleft(songs[::-1]) keeps the order of songs at
the front when play_next, extend appends otherwise. -/
def SongQueue.extendInner (q : SongQueue α) (songs : List α)
    (play_next : Bool) : SongQueue α :=
  if play_next then { q with queue := songs ++ q.queue }
  else { q with queue := q.queue ++ songs }

/-- SongQueue.extend_nowait: raises QueueFull when
len(songs) > maxsize - qsize() (Python int subtraction, possibly negative),
otherwise _extend. -/
def SongQueue.extend_nowait (q : SongQueue α) (songs : List α)
    (play_next : Bool) : Except QueueFull (SongQueue α) :=
  if (songs.length : Int) > (q.maxsize : Int) - (q.qsize : Int) then
    .error .mk
  else .ok (q.extendInner songs play_next)

/-- SongQueue.get: awaits the head of the queue (none when empty models the
suspended get), then, when is_looping, immediately re-inserts the song at
the tail via put_nowait (a QueueFull there would propagate; also none). -/
def SongQueue.get (q : SongQueue α) : Option (α × SongQueue α) :=
  match q.queue with
  | [] => none
  | s :: rest =>
    let q1 : SongQueue α := { q with queue := rest }
    if q.is_looping then
      match q1.put_nowait s false with
      | .ok q2 => some (s, q2)
      | .error _ => none
    else some (s, q1)

/-- SongQueue.clear. -/
def SongQueue.clear (q : SongQueue α) : SongQueue α := { q with queue := [] }

/-- SongQueue.remove: resolves a missing index by the first song whose id is
in song_ids (modelled as a membership test), then removes by 0-based index
when in range; otherwise returns None and leaves the queue unchanged. -/
def SongQueue.remove (q : SongQueue α) (index : Option Int)
    (song_ids : α → Bool) : Option α × SongQueue α :=
  let idx : Option Int :=
    match index with
    | some i => some i
    | none => (q.queue.findIdx? song_ids).map (fun n => (n : Int))
  match idx with
  | none => (none, q)
  | some i =>
    if 0 ≤ i ∧ i < (q.qsize : Int) then
      (q.queue.get? i.toNat, { q with queue := q.queue.eraseIdx i.toNat })
    else (none, q)

/-- MusicCog.remove (music_bot/music_cog.py): the command takes a 1-based
display position and calls remove_from_song_queue(index - 1), which forwards
to SongQueue.remove with that 0-based index. -/
def MusicCog.remove (q : SongQueue α) (index : Int) : Option α × SongQueue α :=
  q.remove (some (index - 1)) (fun _ => false)

/-- Status of the discord VoiceClient audio player thread:
is_playing() is true exactly in state playing, is_paused() in paused. -/
inductive VoiceStatus
  | stopped
  | playing
  | paused
deriving DecidableEq, Repr

/-- Phase of the AudioPlayer.play_audio control loop: polling while blocked
in song_queue.get() (inside asyncio.wait_for), awaiting while blocked in
play_next_song_event.wait() after issuing voice_client.play. -/
inductive Phase
  | polling
  | awaiting
deriving DecidableEq, Repr

/-- AudioPlayer (music_bot/audio_player.py), parametric in the track type.
voice_client none models a missing voice client (Python None); when present
it carries the player-thread status.  persisted_plays is the append-only log
of TrackPlayed events recorded by record_song_play_to_db. -/
structure APState (α : Type) where
  voice_client : Option VoiceStatus
  current_song : Option α
  song_queue : SongQueue α
  persisted_plays : List α
  phase : Phase
deriving DecidableEq, Repr

/-- A freshly joined AudioPlayer: connected voice client with nothing
playing, no current song, empty queue, control loop about to poll. -/
def APState.init (α : Type) : APState α :=
  ⟨some .stopped, none, SongQueue.init α, [], .polling⟩

/-- AudioPlayer.is_currently_playing: bool(voice_client and current_song). -/
def APState.is_currently_playing (s : APState α) : Bool :=
  s.voice_client.isSome && s.current_song.isSome

/-- The voice client is audible or suspended mid-track: is_playing() or
is_paused() would report true. -/
def voiceActive (s : APState α) : Bool :=
  decide (s.voice_client = some VoiceStatus.playing) ||
    decide (s.voice_client = some VoiceStatus.paused)

/-- AudioPlayer.play_next_song with play_audio_error None, taken together
with the event wake-up it triggers: record_song_play_to_db is scheduled
onto the event loop, current_song is cleared, play_next_song_event is set,
and the control loop returns to the top and polls again.  The player
thread has already ended.  The scheduled record_song_play_to_db appends one
more stop timestamp; it inserts the SongPlay only when the song still had
an open interval, which is the case exactly when the player thread was
playing (record_start at play/resume, record_stop at pause keep starts one
ahead of stops while playing, and balanced while paused).  When the player
was paused the extra stop makes create_song_play raise the TypeError of
total_time_played and nothing is persisted, though current_song was
already cleared by the callback. -/
def APState.play_next_song_ok (s : APState α) : APState α :=
  { s with
    persisted_plays := s.persisted_plays ++
      (if s.voice_client = some VoiceStatus.playing then
        s.current_song.toList
      else [])
    current_song := none
    voice_client := some .stopped
    phase := .polling }

/-- AudioPlayer.play_next_song with a non-None play_audio_error: the
callback prints the error and raises AudioError before doing anything else,
so nothing is persisted, current_song is kept, the event is never set and
the loop phase cannot change.  Only the already-ended player thread is
reflected (is_playing() now reports False). -/
def APState.play_next_song_err (s : APState α) : APState α :=
  { s with voice_client := s.voice_client.map (fun _ => VoiceStatus.stopped) }

/-- AudioPlayer.skip (with back=False): calls voice_client.is_playing(),
raising AttributeError when voice_client is None (Except.error); when
playing, voice_client.stop() makes the player thread run the completion
callback, and True is returned; otherwise False. -/
def APState.skip (s : APState α) : Except Unit (APState α × Bool) :=
  match s.voice_client with
  | none => .error ()
  | some v =>
    if v = VoiceStatus.playing then .ok (s.play_next_song_ok, true)
    else .ok (s, false)

/-- AudioPlayer.pause: same AttributeError hazard; when playing, pauses the
voice client (and records a stop timestamp on the current song, abstracted
here) and returns True; otherwise False. -/
def APState.pause (s : APState α) : Except Unit (APState α × Bool) :=
  match s.voice_client with
  | none => .error ()
  | some v =>
    if v = VoiceStatus.playing then
      .ok ({ s with voice_client := some VoiceStatus.paused }, true)
    else .ok (s, false)

/-- AudioPlayer.resume: same AttributeError hazard; when paused, records a
start timestamp (abstracted) and resumes, returning True; otherwise False. -/
def APState.resume (s : APState α) : Except Unit (APState α × Bool) :=
  match s.voice_client with
  | none => .error ()
  | some v =>
    if v = VoiceStatus.paused then
      .ok ({ s with voice_client := some VoiceStatus.playing }, true)
    else .ok (s, false)

/-- AudioPlayer.stop: when is_currently_playing, clears the song queue and
issues voice_client.stop(); if the player thread was active (playing or
paused) that triggers the completion callback.  Returns True exactly when
is_currently_playing; never touches the queue otherwise.  No AttributeError
is possible: bool(voice_client and current_song) short-circuits. -/
def APState.stop (s : APState α) : APState α × Bool :=
  if s.is_currently_playing then
    let s1 := { s with song_queue := s.song_queue.clear }
    match s1.voice_client with
    | some VoiceStatus.playing => (s1.play_next_song_ok, true)
    | some VoiceStatus.paused => (s1.play_next_song_ok, true)
    | _ => (s1, true)
  else (s, false)

/-- AudioPlayer.add_to_song_queue: put_nowait on the song queue (a QueueFull
would propagate to the command handler, leaving the player unchanged). -/
def APState.add_to_song_queue (s : APState α) (t : α) (play_next : Bool) :
    APState α :=
  match s.song_queue.put_nowait t play_next with
  | .ok q1 => { s with song_queue := q1 }
  | .error _ => s

/-- AudioPlayer.flip_is_queue_looping. -/
def APState.flip_is_queue_looping (s : APState α) : APState α :=
  { s with song_queue :=
    { s.song_queue with is_looping := !s.song_queue.is_looping } }

/-- The body of one play_audio iteration once the queue yields a song: the
await on song_queue.get() completes (setting current_song in
poll_song_queue), then record_start and voice_client.play run with no
intervening suspension point, so the whole segment is one atomic step of the
cooperative control flow.  Does nothing while the queue is empty or the loop
is not polling. -/
def APState.dequeue_and_play (s : APState α) : APState α :=
  if s.phase = Phase.polling then
    match s.song_queue.get with
    | none => s
    | some (t, q1) =>
      { s with
        song_queue := q1
        current_song := some t
        voice_client := some .playing
        phase := .awaiting }
  else s

/-- The event alphabet of the coordinator: command-handler calls, the
control loop resuming, and the two flavours of completion callback. -/
inductive Event (α : Type)
  | enqueue (t : α) (play_next : Bool)
  | dequeuePlay
  | completeOk
  | completeErr
  | skip
  | pause
  | resume
  | stop
  | flipLoop

/-- One atomic step of the coordinator.  Completion callbacks only fire
while the loop is awaiting one and the player thread is playing; commands
that raise (missing voice client) leave the state unchanged, since the
exception propagates before any mutation. -/
def step (s : APState α) : Event α → APState α
  | .enqueue t pn => s.add_to_song_queue t pn
  | .dequeuePlay => s.dequeue_and_play
  | .completeOk =>
    if s.phase = Phase.awaiting ∧ s.voice_client = some VoiceStatus.playing
    then s.play_next_song_ok else s
  | .completeErr =>
    if s.phase = Phase.awaiting ∧ s.voice_client = some VoiceStatus.playing
    then s.play_next_song_err else s
  | .skip => match s.skip with | .ok (s1, _) => s1 | .error _ => s
  | .pause => match s.pause with | .ok (s1, _) => s1 | .error _ => s
  | .resume => match s.resume with | .ok (s1, _) => s1 | .error _ => s
  | .stop => s.stop.1
  | .flipLoop => s.flip_is_queue_looping

/-- Run a sequence of events from a state. -/
def run (s : APState α) : List (Event α) → APState α
  | [] => s
  | e :: es => run (step s e) es

/-- Is this event an error-carrying completion callback? -/
def isErrEvent : Event α → Bool
  | .completeErr => true
  | _ => false

/-- No completion callback in the trace carries an error. -/
def errorFree (es : List (Event α)) : Bool := es.all (fun e => !isErrEvent e)

/-- The filter_kwargs built by StatsFactory.create_stats: guild_id always,
requester_id when a user was given, song_id when a track was given. -/
structure StatsFilter where
  guild_id : Nat
  requester_id : Option Nat
  song_id : Option Nat
deriving DecidableEq, Repr

/-- The sqlalchemy filter_by conjunction applied to a SongPlay row. -/
def matches_filter (f : StatsFilter) (p : SongPlay) : Bool :=
  decide (p.guild_id = f.guild_id) &&
  (match f.requester_id with
   | none => true
   | some r => decide (p.requester_id = r)) &&
  (match f.song_id with
   | none => true
   | some i => decide (p.song_id = i))

/-- StatsFactory.is_current_song_relevant: ctx.audio_player (None when the
guild has no player) and its is_currently_playing, and, only when the filter
has a song_id, equality with the current song id.  The requester_id filter
key is not consulted. -/
def StatsFactory.is_current_song_relevant (player : Option (APState Song))
    (f : StatsFilter) : Bool :=
  match player with
  | none => false
  | some p =>
    p.is_currently_playing &&
      (match f.song_id with
       | none => true
       | some sid =>
         match p.current_song with
         | some cur => decide (sid = cur.id)
         | none => false)

/-- StatsFactory.get_num_songs_played: the persisted count plus
int(is_current_song_relevant()). -/
def StatsFactory.get_num_songs_played (db : List SongPlay)
    (player : Option (APState Song)) (f : StatsFilter) : Nat :=
  (db.filter (matches_filter f)).length +
    (if StatsFactory.is_current_song_relevant player f then 1 else 0)

/-- StatsFactory.get_total_duration_formatted before formatting: the summed
persisted durations, plus the current song's
total_time_played.total_seconds() when relevant (whose TypeError failure
propagates as none). -/
def StatsFactory.get_total_duration (db : List SongPlay)
    (player : Option (APState Song)) (f : StatsFilter) (now : Int) :
    Option Int :=
  let base : Int := ((db.filter (matches_filter f)).map SongPlay.duration).sum
  if StatsFactory.is_current_song_relevant player f then
    match player with
    | some p =>
      match p.current_song with
      | some cur => (cur.total_time_played now).map (fun d => base + d)
      | none => some base
    | none => some base
  else some base

/-! Interval-accounting lemmas for Song.total_time_played. -/

theorem sum_intervals_closed (now : Int) :
    ∀ (starts stops : List Int), starts.length = stops.length →
      sum_intervals now (zipLongest starts stops) =
        some (stops.sum - starts.sum) := by
  intro starts
  induction starts with
  | nil =>
    intro stops h
    cases stops with
    | nil => simp [zipLongest, sum_intervals]
    | cons b bs => simp at h
  | cons a as ih =>
    intro stops h
    cases stops with
    | nil => simp at h
    | cons b bs =>
      simp only [List.length_cons, Nat.add_right_cancel_iff] at h
      simp only [zipLongest, sum_intervals, interval_time, Option.getD_some,
        ih bs h, List.sum_cons]
      congr 1
      ring

theorem sum_intervals_open (now : Int) :
    ∀ (starts stops : List Int), starts.length = stops.length + 1 →
      sum_intervals now (zipLongest starts stops) =
        some ((stops.sum + now) - starts.sum) := by
  intro starts
  induction starts with
  | nil => intro stops h; simp at h
  | cons a as ih =>
    intro stops h
    cases stops with
    | nil =>
      simp only [List.length_cons, List.length_nil] at h
      have has : as = [] := List.length_eq_zero.mp (by omega)
      subst has
      simp only [zipLongest, List.map_nil, sum_intervals, interval_time,
        Option.getD_none, List.sum_cons, List.sum_nil]
      congr 1
      ring
    | cons b bs =>
      simp only [List.length_cons, Nat.add_right_cancel_iff] at h
      simp only [zipLongest, sum_intervals, interval_time, Option.getD_some,
        ih bs h, List.sum_cons]
      congr 1
      ring

/-- C4: the sum of (stopped − started) over completed intervals, plus
(now − started) for a still-open interval, is what total_time_played
returns; and for the scenario play at t0, pause at t1, resume at t2, stop
at t3, the persisted duration_seconds is exactly the wall-clock span
(t3 − t0) minus the paused span (t2 − t1). -/
theorem c4_duration_accounting (s : Song) (now : Int) :
    (s.timestampsStarted.length = s.timestampsStopped.length →
      s.total_time_played now =
        some (s.timestampsStopped.sum - s.timestampsStarted.sum)) ∧
    (s.timestampsStarted.length = s.timestampsStopped.length + 1 →
      s.total_time_played now =
        some ((s.timestampsStopped.sum + now) - s.timestampsStarted.sum)) ∧
    ∀ (id r g : Nat) (t0 t1 t2 t3 : Int),
      (record_song_play_to_db
        ((((Song.fresh id r g).record_start t0).record_stop t1).record_start
          t2) t3).2 =
        some ⟨g, r, id, (t3 - t0) - (t2 - t1)⟩ := by
  refine ⟨fun h => sum_intervals_closed now _ _ h,
    fun h => sum_intervals_open now _ _ h, ?_⟩
  intro id r g t0 t1 t2 t3
  simp only [record_song_play_to_db, Song.fresh, Song.record_start,
    Song.record_stop, Song.create_song_play, Song.total_time_played,
    List.nil_append, List.cons_append, List.append_nil]
  simp only [zipLongest, sum_intervals, interval_time, Option.getD_some]
  have harith : t1 - t0 + (t3 - t2 + 0) = (t3 - t0) - (t2 - t1) := by ring
  rw [harith]
  rfl

/-- Witness for c4_duration_accounting: a two-interval closed song, an open
one-interval song, and the concrete pause scenario 0,3,5,9. -/
theorem c4_duration_accounting_witness :
    (Song.total_time_played ⟨0, 0, 0, none, [1, 5], [3, 8]⟩ 20 =
      some ((3 + 8 + 0) - (1 + 5 + 0))) ∧
    (Song.total_time_played ⟨0, 0, 0, none, [1], []⟩ 20 =
      some ((0 + 20) - (1 + 0))) ∧
    (record_song_play_to_db
      ((((Song.fresh 7 2 9).record_start 0).record_stop 3).record_start 5)
      9).2 = some ⟨9, 2, 7, (9 - 0) - (5 - 3)⟩ := by
  refine ⟨?_, ?_, ?_⟩
  · have h := (c4_duration_accounting ⟨0, 0, 0, none, [1, 5], [3, 8]⟩ 20).1
      (by decide)
    simpa using h
  · have h := (c4_duration_accounting ⟨0, 0, 0, none, [1], []⟩ 20).2.1
      (by decide)
    simpa using h
  · exact (c4_duration_accounting ⟨0, 0, 0, none, [], []⟩ 0).2.2 7 2 9 0 3 5 9

/-! Coordinator invariants.  invSafe: while the control loop is polling the
queue, no song is current (the completion callback cleared it before
setting the event).  goodLive: a song is current exactly while the voice
client is playing or paused; it is preserved by every step except an
error-carrying completion callback. -/

def invSafe (s : APState α) : Prop :=
  s.phase = Phase.polling → s.current_song = none

def goodLive (s : APState α) : Prop :=
  s.current_song.isSome = true ↔ voiceActive s = true

theorem invSafe_init (α : Type) : invSafe (APState.init α) := fun _ => rfl

theorem goodLive_init (α : Type) : goodLive (APState.init α) := by
  simp [goodLive, APState.init, voiceActive]

theorem invSafe_step (s : APState α) (e : Event α) (h : invSafe s) :
    invSafe (step s e) := by
  cases e with
  | enqueue t pn =>
    simp only [step, APState.add_to_song_queue]
    cases s.song_queue.put_nowait t pn with
    | ok q1 => intro hp; exact h hp
    | error q1 => exact h
  | dequeuePlay =>
    simp only [step, APState.dequeue_and_play]
    by_cases hp : s.phase = Phase.polling
    · rw [if_pos hp]
      cases s.song_queue.get with
      | none => exact h
      | some p => intro hp2; simp at hp2
    · rw [if_neg hp]; exact h
  | completeOk =>
    simp only [step]
    by_cases hg : s.phase = Phase.awaiting ∧
        s.voice_client = some VoiceStatus.playing
    · rw [if_pos hg]; intro _; rfl
    · rw [if_neg hg]; exact h
  | completeErr =>
    simp only [step]
    by_cases hg : s.phase = Phase.awaiting ∧
        s.voice_client = some VoiceStatus.playing
    · rw [if_pos hg]
      intro hp
      exact absurd (hg.1 ▸ hp) (by simp)
    · rw [if_neg hg]; exact h
  | skip =>
    simp only [step, APState.skip]
    cases hv : s.voice_client with
    | none => exact h
    | some v =>
      cases v with
      | playing => exact fun _ => rfl
      | stopped => exact h
      | paused => exact h
  | pause =>
    simp only [step, APState.pause]
    cases hv : s.voice_client with
    | none => exact h
    | some v =>
      cases v with
      | playing => exact fun hp => h hp
      | stopped => exact h
      | paused => exact h
  | resume =>
    simp only [step, APState.resume]
    cases hv : s.voice_client with
    | none => exact h
    | some v =>
      cases v with
      | paused => exact fun hp => h hp
      | stopped => exact h
      | playing => exact h
  | stop =>
    simp only [step, APState.stop]
    by_cases hc : s.is_currently_playing = true
    · rw [if_pos hc]
      cases hv : s.voice_client with
      | none => intro hp; exact h hp
      | some v => cases v <;> first | (intro hp; exact h hp) | (intro _; rfl)
    · rw [if_neg hc]; exact h
  | flipLoop =>
    simp only [step, APState.flip_is_queue_looping]
    intro hp; exact h hp

theorem invSafe_run (es : List (Event α)) :
    ∀ s : APState α, invSafe s → invSafe (run s es) := by
  induction es with
  | nil => intro s h; exact h
  | cons e es ih => intro s h; exact ih (step s e) (invSafe_step s e h)

theorem goodLive_step (s : APState α) (e : Event α) (h : goodLive s)
    (he : isErrEvent e = false) : goodLive (step s e) := by
  cases e with
  | enqueue t pn =>
    simp only [step, APState.add_to_song_queue]
    cases s.song_queue.put_nowait t pn with
    | ok q1 => exact h
    | error q1 => exact h
  | dequeuePlay =>
    simp only [step, APState.dequeue_and_play]
    by_cases hp : s.phase = Phase.polling
    · rw [if_pos hp]
      cases s.song_queue.get with
      | none => exact h
      | some p => simp [goodLive, voiceActive]
    · rw [if_neg hp]; exact h
  | completeOk =>
    simp only [step]
    by_cases hg : s.phase = Phase.awaiting ∧
        s.voice_client = some VoiceStatus.playing
    · rw [if_pos hg]; simp [goodLive, APState.play_next_song_ok, voiceActive]
    · rw [if_neg hg]; exact h
  | completeErr => simp [isErrEvent] at he
  | skip =>
    simp only [step, APState.skip]
    cases hv : s.voice_client with
    | none => exact h
    | some v =>
      cases v with
      | playing => simp [goodLive, APState.play_next_song_ok, voiceActive]
      | stopped => exact h
      | paused => exact h
  | pause =>
    simp only [step, APState.pause]
    cases hv : s.voice_client with
    | none => exact h
    | some v =>
      cases v with
      | playing =>
        simp only [goodLive, voiceActive, hv] at h
        simp [goodLive, voiceActive, h]
      | stopped => exact h
      | paused => exact h
  | resume =>
    simp only [step, APState.resume]
    cases hv : s.voice_client with
    | none => exact h
    | some v =>
      cases v with
      | paused =>
        simp only [goodLive, voiceActive, hv] at h
        simp [goodLive, voiceActive, h]
      | stopped => exact h
      | playing => exact h
  | stop =>
    simp only [step, APState.stop]
    by_cases hc : s.is_currently_playing = true
    · rw [if_pos hc]
      have hcur : s.current_song.isSome = true := by
        simp only [APState.is_currently_playing, Bool.and_eq_true] at hc
        exact hc.2
      have hact : voiceActive s = true := h.mp hcur
      cases hv : s.voice_client with
      | none => simp [voiceActive, hv] at hact
      | some v =>
        cases v with
        | stopped => simp [voiceActive, hv] at hact
        | playing =>
          simp [goodLive, APState.play_next_song_ok, voiceActive]
        | paused =>
          simp [goodLive, APState.play_next_song_ok, voiceActive]
    · rw [if_neg hc]; exact h
  | flipLoop =>
    simp only [step, APState.flip_is_queue_looping]
    exact h

theorem goodLive_run (es : List (Event α)) :
    ∀ s : APState α, goodLive s → errorFree es = true → goodLive (run s es) := by
  induction es with
  | nil => intro s h _; exact h
  | cons e es ih =>
    intro s h hef
    simp only [errorFree, List.all_cons, Bool.and_eq_true, Bool.not_eq_eq_eq_not,
      Bool.not_true] at hef
    exact ih (step s e)
      (goodLive_step s e h (by simpa using hef.1))
      (by simpa [errorFree] using hef.2)

/-- A step changes current_song only by first assigning from none or by
clearing to none: a new song is never assigned over an unretired one. -/
theorem current_song_no_overwrite (s : APState α) (e : Event α)
    (hs : invSafe s)
    (hch : (step s e).current_song ≠ s.current_song) :
    s.current_song = none ∨ (step s e).current_song = none := by
  cases e with
  | enqueue t pn =>
    exfalso; apply hch
    simp only [step, APState.add_to_song_queue]
    cases s.song_queue.put_nowait t pn with
    | ok q1 => rfl
    | error q1 => rfl
  | dequeuePlay =>
    simp only [step, APState.dequeue_and_play] at hch ⊢
    by_cases hp : s.phase = Phase.polling
    · exact Or.inl (hs hp)
    · rw [if_neg hp] at hch; exact absurd rfl hch
  | completeOk =>
    simp only [step] at hch ⊢
    by_cases hg : s.phase = Phase.awaiting ∧
        s.voice_client = some VoiceStatus.playing
    · rw [if_pos hg]; exact Or.inr rfl
    · rw [if_neg hg] at hch; exact absurd rfl hch
  | completeErr =>
    exfalso; apply hch
    simp only [step]
    by_cases hg : s.phase = Phase.awaiting ∧
        s.voice_client = some VoiceStatus.playing
    · rw [if_pos hg]; rfl
    · rw [if_neg hg]
  | skip =>
    simp only [step, APState.skip] at hch ⊢
    cases hv : s.voice_client with
    | none => rw [hv] at hch; exact absurd rfl hch
    | some v =>
      rw [hv] at hch
      cases v with
      | playing => exact Or.inr rfl
      | stopped => exact absurd rfl hch
      | paused => exact absurd rfl hch
  | pause =>
    exfalso; apply hch
    simp only [step, APState.pause]
    cases hv : s.voice_client with
    | none => rfl
    | some v => cases v <;> rfl
  | resume =>
    exfalso; apply hch
    simp only [step, APState.resume]
    cases hv : s.voice_client with
    | none => rfl
    | some v => cases v <;> rfl
  | stop =>
    simp only [step, APState.stop] at hch ⊢
    by_cases hc : s.is_currently_playing = true
    · rw [if_pos hc] at hch ⊢
      cases hv : s.voice_client with
      | none => rw [hv] at hch; exact absurd rfl hch
      | some v =>
        rw [hv] at hch
        cases v with
        | stopped => exact absurd rfl hch
        | playing => exact Or.inr rfl
        | paused => exact Or.inr rfl
    · rw [if_neg hc] at hch; exact absurd rfl hch
  | flipLoop =>
    exfalso; apply hch
    simp only [step, APState.flip_is_queue_looping]

/-- C10: the completion path (record_song_play_to_db) unconditionally
records a stop; for a song paused at t1 (its only interval already closed),
the stops outnumber the starts by one, zip_longest pairs the extra stop
with a missing (none) start, and both total_time_played and the created
SongPlay fail (the modelled TypeError) instead of producing a sum of
well-formed intervals. -/
theorem c10_unconditional_stop (t0 t1 t2 now : Int) (id r g : Nat) :
    ((record_song_play_to_db
        (((Song.fresh id r g).record_start t0).record_stop t1)
        t2).1.timestampsStopped.length =
      (record_song_play_to_db
        (((Song.fresh id r g).record_start t0).record_stop t1)
        t2).1.timestampsStarted.length + 1) ∧
    zipLongest
      (record_song_play_to_db
        (((Song.fresh id r g).record_start t0).record_stop t1)
        t2).1.timestampsStarted
      (record_song_play_to_db
        (((Song.fresh id r g).record_start t0).record_stop t1)
        t2).1.timestampsStopped = [(some t0, some t1), (none, some t2)] ∧
    (record_song_play_to_db
      (((Song.fresh id r g).record_start t0).record_stop t1)
      t2).1.total_time_played now = none ∧
    (record_song_play_to_db
      (((Song.fresh id r g).record_start t0).record_stop t1) t2).2 = none := by
  refine ⟨rfl, rfl, rfl, rfl⟩

/-- C1 counterexample: enqueue track 1, start it, then receive an
error-carrying completion callback.  In the resulting reachable state
current_song is still set while the voice client reports neither playing
nor paused, so the claimed iff between current_song and playing-or-paused
fails as stated. -/
theorem c1_counterexample :
    (run (APState.init Nat)
      [Event.enqueue 1 false, Event.dequeuePlay,
        Event.completeErr]).current_song = some 1 ∧
    voiceActive
      (run (APState.init Nat)
        [Event.enqueue 1 false, Event.dequeuePlay, Event.completeErr]) =
      false := by
  decide

/-- C1 amended: for every sequence of events, a step never assigns a newly
dequeued song while a previous one is unretired (current_song only moves
none to some or some to none, the polling phase being entered only with
current_song cleared); and for every sequence in which no completion
callback carried an error, current_song is non-none exactly while the
voice client reports playing or paused. -/
theorem c1_at_most_one_current (es : List (Event Nat)) (e : Event Nat) :
    ((step (run (APState.init Nat) es) e).current_song ≠
        (run (APState.init Nat) es).current_song →
      (run (APState.init Nat) es).current_song = none ∨
        (step (run (APState.init Nat) es) e).current_song = none) ∧
    (errorFree es = true →
      ((run (APState.init Nat) es).current_song.isSome = true ↔
        voiceActive (run (APState.init Nat) es) = true)) :=
  ⟨current_song_no_overwrite _ e (invSafe_run es _ (invSafe_init Nat)),
   fun hef => goodLive_run es _ (goodLive_init Nat) hef⟩

/-- Witness for c1_at_most_one_current: the error-free trace enqueue 1,
dequeuePlay, followed by a natural completion step. -/
theorem c1_at_most_one_current_witness :
    ((run (APState.init Nat)
        [Event.enqueue 1 false, Event.dequeuePlay]).current_song = none ∨
      (step (run (APState.init Nat) [Event.enqueue 1 false, Event.dequeuePlay])
        Event.completeOk).current_song = none) ∧
    ((run (APState.init Nat)
        [Event.enqueue 1 false, Event.dequeuePlay]).current_song.isSome =
        true ↔
      voiceActive
        (run (APState.init Nat) [Event.enqueue 1 false, Event.dequeuePlay]) =
        true) :=
  ⟨(c1_at_most_one_current [Event.enqueue 1 false, Event.dequeuePlay]
      Event.completeOk).1 (by decide),
   (c1_at_most_one_current [Event.enqueue 1 false, Event.dequeuePlay]
      Event.completeOk).2 (by decide)⟩

/-- C2 at the failing input: track 1 is playing, track 2 is queued, and the
completion callback arrives carrying an error.  The callback raises
AudioError before scheduling the persist+advance work: nothing is
persisted, current_song is not cleared, the loop never leaves the awaiting
phase, and neither another poll nor a further completion can move the
state: the control loop is permanently blocked, contrary to the claim. -/
theorem c2_error_wedges_loop :
    (run (APState.init Nat)
      [Event.enqueue 1 false, Event.dequeuePlay, Event.enqueue 2 false,
        Event.completeErr]).current_song = some 1 ∧
    (run (APState.init Nat)
      [Event.enqueue 1 false, Event.dequeuePlay, Event.enqueue 2 false,
        Event.completeErr]).persisted_plays = [] ∧
    (run (APState.init Nat)
      [Event.enqueue 1 false, Event.dequeuePlay, Event.enqueue 2 false,
        Event.completeErr]).phase = Phase.awaiting ∧
    (run (APState.init Nat)
      [Event.enqueue 1 false, Event.dequeuePlay, Event.enqueue 2 false,
        Event.completeErr]).song_queue.queue = [2] ∧
    step
      (run (APState.init Nat)
        [Event.enqueue 1 false, Event.dequeuePlay, Event.enqueue 2 false,
          Event.completeErr]) Event.dequeuePlay =
      run (APState.init Nat)
        [Event.enqueue 1 false, Event.dequeuePlay, Event.enqueue 2 false,
          Event.completeErr] ∧
    step
      (run (APState.init Nat)
        [Event.enqueue 1 false, Event.dequeuePlay, Event.enqueue 2 false,
          Event.completeErr]) Event.completeOk =
      run (APState.init Nat)
        [Event.enqueue 1 false, Event.dequeuePlay, Event.enqueue 2 false,
          Event.completeErr] := by
  decide

/-- C3 counterexample: with the loop flag set, enqueue track 7 and dequeue
it to start playing.  At that very moment, with the play not completed and
nothing persisted, 7 is already back at the tail of the queue, so the
re-insertion did not wait for completion or persistence. -/
theorem c3_counterexample :
    (run (APState.init Nat)
      [Event.flipLoop, Event.enqueue 7 false,
        Event.dequeuePlay]).song_queue.queue = [7] ∧
    (run (APState.init Nat)
      [Event.flipLoop, Event.enqueue 7 false,
        Event.dequeuePlay]).current_song = some 7 ∧
    (run (APState.init Nat)
      [Event.flipLoop, Event.enqueue 7 false,
        Event.dequeuePlay]).persisted_plays = [] := by
  decide

/-- C3 amended: with the loop flag set, SongQueue.get re-inserts the
dequeued song at the tail immediately, at the moment the song is dequeued
to start playing; the coordinator step that starts playback leaves the song
at the tail of the queue while current_song has just been assigned and the
persisted log is untouched.  (An explicit stop later clears the re-inserted
copy along with the rest of the queue.) -/
theorem c3_reinsert_at_dequeue (q : SongQueue Nat) (t : Nat)
    (rest : List Nat) (hq : q.queue = t :: rest) (hl : q.is_looping = true)
    (hm : q.maxsize = 0) :
    q.get = some (t, { q with queue := rest ++ [t] }) ∧
    ∀ s : APState Nat, s.phase = Phase.polling → s.song_queue = q →
      (step s Event.dequeuePlay).song_queue.queue = rest ++ [t] ∧
      (step s Event.dequeuePlay).current_song = some t ∧
      (step s Event.dequeuePlay).persisted_plays = s.persisted_plays := by
  obtain ⟨qs, qm, ql⟩ := q
  simp only at hq hl hm
  subst hq hl hm
  have hget : SongQueue.get (⟨t :: rest, 0, true⟩ : SongQueue Nat) =
      some (t, ⟨rest ++ [t], 0, true⟩) := rfl
  refine ⟨hget, ?_⟩
  intro s hp hsq
  simp [step, APState.dequeue_and_play, hp, hsq, hget]

/-- Witness for c3_reinsert_at_dequeue at the queue [5, 6] with loop on. -/
theorem c3_reinsert_at_dequeue_witness :
    SongQueue.get (⟨[5, 6], 0, true⟩ : SongQueue Nat) =
      some (5, ⟨[6, 5], 0, true⟩) ∧
    (step
      (⟨some VoiceStatus.stopped, none, ⟨[5, 6], 0, true⟩, [],
        Phase.polling⟩ : APState Nat)
      Event.dequeuePlay).song_queue.queue = [6, 5] :=
  have h := c3_reinsert_at_dequeue ⟨[5, 6], 0, true⟩ 5 [6] rfl rfl rfl
  ⟨h.1, (h.2 _ rfl rfl).1⟩

/-- C5 against the code: the SongQueue is constructed with the asyncio
default maxsize 0 (unbounded); put_nowait then never raises, while
extend_nowait raises QueueFull for every non-empty sequence, because its
check len(songs) > maxsize - qsize() does not treat maxsize 0 as
unbounded.  So multi-track insertion always fails and single-track
insertion never does, regardless of any configured capacity. -/
theorem c5_capacity_check (q : SongQueue Nat) (songs : List Nat) (item : Nat)
    (pn pn2 : Bool) (hm : q.maxsize = 0) :
    (songs ≠ [] → q.extend_nowait songs pn = Except.error QueueFull.mk) ∧
    q.put_nowait item pn2 = Except.ok (q.putInner item pn2) := by
  constructor
  · intro hne
    have hc : (songs.length : Int) > (q.maxsize : Int) - (q.qsize : Int) := by
      rw [hm]
      have hlen : 0 < songs.length := List.length_pos.mpr hne
      push_cast
      omega
    unfold SongQueue.extend_nowait
    rw [if_pos hc]
  · have hf : q.full = false := by simp [SongQueue.full, hm]
    simp [SongQueue.put_nowait, hf]

/-- Witness for c5_capacity_check: the freshly constructed queue rejects
the one-song playlist [3] with QueueFull but accepts the single song 4. -/
theorem c5_capacity_check_witness :
    (SongQueue.init Nat).extend_nowait [3] false =
      Except.error QueueFull.mk ∧
    (SongQueue.init Nat).put_nowait 4 false =
      Except.ok ((SongQueue.init Nat).putInner 4 false) :=
  ⟨(c5_capacity_check (SongQueue.init Nat) [3] 4 false false rfl).1
      (by decide),
   (c5_capacity_check (SongQueue.init Nat) [3] 4 false false rfl).2⟩

/-- C6 counterexample: the guild's player is playing a song requested by
member 1, and the stats filter constrains the requester to member 2
(no song constraint).  is_current_song_relevant still reports true, so the
current song is counted in the plays count and its open interval added to
the total duration although its requester does not match the filter. -/
theorem c6_counterexample :
    StatsFactory.is_current_song_relevant
      (some ⟨some VoiceStatus.playing, some ⟨5, 1, 9, none, [0], []⟩,
        SongQueue.init Song, [], Phase.awaiting⟩)
      ⟨9, some 2, none⟩ = true ∧
    StatsFactory.get_num_songs_played []
      (some ⟨some VoiceStatus.playing, some ⟨5, 1, 9, none, [0], []⟩,
        SongQueue.init Song, [], Phase.awaiting⟩)
      ⟨9, some 2, none⟩ = 1 ∧
    StatsFactory.get_total_duration []
      (some ⟨some VoiceStatus.playing, some ⟨5, 1, 9, none, [0], []⟩,
        SongQueue.init Song, [], Phase.awaiting⟩)
      ⟨9, some 2, none⟩ 10 = some 10 ∧
    (⟨5, 1, 9, none, [0], []⟩ : Song).requesterId ≠ 2 := by
  decide

/-- C6 amended: the live current song contributes to the plays count and
total duration exactly when the guild's player exists, is currently
playing, and the filter's song constraint (when present) matches the
current song id; the requester constraint is ignored (the relevance is
invariant under changing it).  Once the completion step persists the
current song's play, the song is retired and the live merge contributes
nothing, so the persisted event is never double-counted. -/
theorem c6_current_merge (db : List SongPlay) (p : APState Song)
    (f : StatsFilter) (r : Option Nat) (now : Int) (s : APState Song)
    (cur : Song) :
    StatsFactory.is_current_song_relevant (some p)
        ⟨f.guild_id, r, f.song_id⟩ =
      StatsFactory.is_current_song_relevant (some p) f ∧
    (StatsFactory.is_current_song_relevant (some p) f = true ↔
      (p.is_currently_playing = true ∧
        ∀ sid, f.song_id = some sid →
          ∃ c, p.current_song = some c ∧ c.id = sid)) ∧
    StatsFactory.get_num_songs_played db (some p) f =
      (db.filter (matches_filter f)).length +
        (if StatsFactory.is_current_song_relevant (some p) f then 1
          else 0) ∧
    (p.current_song = some cur →
      StatsFactory.is_current_song_relevant (some p) f = true →
      StatsFactory.get_total_duration db (some p) f now =
        (cur.total_time_played now).map
          (fun d =>
            ((db.filter (matches_filter f)).map SongPlay.duration).sum +
              d)) ∧
    (StatsFactory.is_current_song_relevant (some p) f = false →
      StatsFactory.get_total_duration db (some p) f now =
        some ((db.filter (matches_filter f)).map SongPlay.duration).sum) ∧
    (s.phase = Phase.awaiting →
      s.voice_client = some VoiceStatus.playing →
      s.current_song = some cur →
      (step s Event.completeOk).persisted_plays =
          s.persisted_plays ++ [cur] ∧
        StatsFactory.is_current_song_relevant
          (some (step s Event.completeOk)) f = false) := by
  refine ⟨rfl, ?_, rfl, ?_, ?_, ?_⟩
  · cases hsid : f.song_id with
    | none =>
      simp [StatsFactory.is_current_song_relevant, hsid]
    | some sid0 =>
      cases hc : p.current_song with
      | none =>
        simp [StatsFactory.is_current_song_relevant, hsid, hc,
          APState.is_currently_playing]
      | some c0 =>
        simp only [StatsFactory.is_current_song_relevant, hsid, hc,
          Bool.and_eq_true, decide_eq_true_eq, Option.some.injEq]
        constructor
        · rintro ⟨hp, hid⟩
          exact ⟨hp, fun sid hs => ⟨c0, rfl, hs ▸ hid.symm⟩⟩
        · rintro ⟨hp, hall⟩
          obtain ⟨c1, hcc, hid1⟩ := hall sid0 rfl
          subst hcc
          exact ⟨hp, hid1.symm⟩
  · intro hcur hrel
    simp [StatsFactory.get_total_duration, hrel, hcur]
  · intro hrel
    simp [StatsFactory.get_total_duration, hrel]
  · intro h1 h2 h3
    constructor
    · simp [step, h1, h2, APState.play_next_song_ok, h3]
    · simp [step, h1, h2, APState.play_next_song_ok,
        StatsFactory.is_current_song_relevant,
        APState.is_currently_playing]

/-- Witness for c6_current_merge: concrete player playing song 5 of
requester 1 in guild 9, filter on requester 2 (relevant: song filter
absent) and filter on song 6 (irrelevant). -/
theorem c6_current_merge_witness :
    StatsFactory.get_total_duration []
      (some ⟨some VoiceStatus.playing, some ⟨5, 1, 9, none, [0], []⟩,
        SongQueue.init Song, [], Phase.awaiting⟩)
      ⟨9, some 2, none⟩ 10 =
      ((⟨5, 1, 9, none, [0], []⟩ : Song).total_time_played 10).map
        (fun d =>
          (([] : List SongPlay).map SongPlay.duration).sum + d) ∧
    StatsFactory.get_total_duration []
      (some ⟨some VoiceStatus.playing, some ⟨5, 1, 9, none, [0], []⟩,
        SongQueue.init Song, [], Phase.awaiting⟩)
      ⟨9, some 2, some 6⟩ 10 = some 0 ∧
    (step
        (⟨some VoiceStatus.playing, some ⟨5, 1, 9, none, [0], []⟩,
          SongQueue.init Song, [], Phase.awaiting⟩ : APState Song)
        Event.completeOk).persisted_plays = [⟨5, 1, 9, none, [0], []⟩] :=
  have hw := c6_current_merge []
    ⟨some VoiceStatus.playing, some ⟨5, 1, 9, none, [0], []⟩,
      SongQueue.init Song, [], Phase.awaiting⟩
    ⟨9, some 2, none⟩ (some 2) 10
    ⟨some VoiceStatus.playing, some ⟨5, 1, 9, none, [0], []⟩,
      SongQueue.init Song, [], Phase.awaiting⟩
    ⟨5, 1, 9, none, [0], []⟩
  have hw2 := c6_current_merge []
    ⟨some VoiceStatus.playing, some ⟨5, 1, 9, none, [0], []⟩,
      SongQueue.init Song, [], Phase.awaiting⟩
    ⟨9, some 2, some 6⟩ (some 2) 10
    ⟨some VoiceStatus.playing, some ⟨5, 1, 9, none, [0], []⟩,
      SongQueue.init Song, [], Phase.awaiting⟩
    ⟨5, 1, 9, none, [0], []⟩
  ⟨hw.2.2.2.1 rfl (by decide),
   by simpa using hw2.2.2.2.2.1 (by decide),
   (hw.2.2.2.2.2 rfl rfl rfl).1⟩

/-- C7 counterexample: with no voice client connected, skip, pause and
resume all raise AttributeError (modelled as Except.error) instead of
returning false. -/
theorem c7_counterexample :
    APState.skip
      (⟨none, none, SongQueue.init Nat, [], Phase.polling⟩ : APState Nat) =
      Except.error () ∧
    APState.pause
      (⟨none, none, SongQueue.init Nat, [], Phase.polling⟩ : APState Nat) =
      Except.error () ∧
    APState.resume
      (⟨none, none, SongQueue.init Nat, [], Phase.polling⟩ : APState Nat) =
      Except.error () :=
  ⟨rfl, rfl, rfl⟩

/-- C7 amended: whenever a voice client is connected, skip, pause and
resume are total and return booleans: skip and pause return true exactly
when the client reports playing, resume exactly when it reports paused;
with no voice client they raise instead. -/
theorem c7_amended (s : APState Nat) (v : VoiceStatus)
    (h : s.voice_client = some v) :
    (∃ p, s.skip = Except.ok p ∧ (p.2 = true ↔ v = VoiceStatus.playing)) ∧
    (∃ p, s.pause = Except.ok p ∧ (p.2 = true ↔ v = VoiceStatus.playing)) ∧
    (∃ p, s.resume = Except.ok p ∧ (p.2 = true ↔ v = VoiceStatus.paused)) := by
  unfold APState.skip APState.pause APState.resume
  rw [h]
  cases v with
  | playing =>
    exact ⟨⟨(s.play_next_song_ok, true), rfl, by simp⟩,
      ⟨({ s with voice_client := some VoiceStatus.paused }, true), rfl,
        by simp⟩,
      ⟨(s, false), rfl, by simp⟩⟩
  | paused =>
    exact ⟨⟨(s, false), rfl, by simp⟩, ⟨(s, false), rfl, by simp⟩,
      ⟨({ s with voice_client := some VoiceStatus.playing }, true), rfl,
        by simp⟩⟩
  | stopped =>
    exact ⟨⟨(s, false), rfl, by simp⟩, ⟨(s, false), rfl, by simp⟩,
      ⟨(s, false), rfl, by simp⟩⟩

/-- Witness for c7_amended at a paused player. -/
theorem c7_amended_witness :
    (∃ p, (⟨some VoiceStatus.paused, some 3, SongQueue.init Nat, [],
        Phase.awaiting⟩ : APState Nat).skip = Except.ok p ∧
      (p.2 = true ↔ VoiceStatus.paused = VoiceStatus.playing)) ∧
    (∃ p, (⟨some VoiceStatus.paused, some 3, SongQueue.init Nat, [],
        Phase.awaiting⟩ : APState Nat).pause = Except.ok p ∧
      (p.2 = true ↔ VoiceStatus.paused = VoiceStatus.playing)) ∧
    (∃ p, (⟨some VoiceStatus.paused, some 3, SongQueue.init Nat, [],
        Phase.awaiting⟩ : APState Nat).resume = Except.ok p ∧
      (p.2 = true ↔ VoiceStatus.paused = VoiceStatus.paused)) :=
  c7_amended
    ⟨some VoiceStatus.paused, some 3, SongQueue.init Nat, [],
      Phase.awaiting⟩ VoiceStatus.paused rfl

/-- C8: removal at a 1-based display position i removes and returns the
song at that position (removeAt 2 on [a, b, c] returns b leaving [a, c]),
and any out-of-range position returns none and leaves the queue
unchanged. -/
theorem c8_remove_at (q : SongQueue Nat) (i : Int) (a b c : Nat) (m : Nat)
    (lo : Bool) :
    MusicCog.remove (⟨[a, b, c], m, lo⟩ : SongQueue Nat) 2 =
      (some b, ⟨[a, c], m, lo⟩) ∧
    (1 ≤ i → i ≤ (q.qsize : Int) →
      MusicCog.remove q i =
        (q.queue.get? (i - 1).toNat,
          { q with queue :=
            q.queue.take (i - 1).toNat ++ q.queue.drop i.toNat })) ∧
    ((i < 1 ∨ (q.qsize : Int) < i) → MusicCog.remove q i = (none, q)) := by
  refine ⟨rfl, ?_, ?_⟩
  · intro h1 h2
    simp only [MusicCog.remove, SongQueue.remove]
    rw [if_pos ⟨by omega, by omega⟩]
    have hidx : (i - 1).toNat + 1 = i.toNat := by omega
    rw [List.eraseIdx_eq_take_drop_succ, hidx]
  · intro h
    simp only [MusicCog.remove, SongQueue.remove]
    rw [if_neg (by omega : ¬(0 ≤ i - 1 ∧ i - 1 < (q.qsize : Int)))]

/-- Witness for c8_remove_at: queue [10, 20, 30], in-range position 2 and
out-of-range position 5. -/
theorem c8_remove_at_witness :
    MusicCog.remove (⟨[10, 20, 30], 0, false⟩ : SongQueue Nat) 2 =
      (([10, 20, 30] : List Nat).get? ((2 : Int) - 1).toNat,
        ⟨([10, 20, 30] : List Nat).take ((2 : Int) - 1).toNat ++
          ([10, 20, 30] : List Nat).drop (2 : Int).toNat, 0, false⟩) ∧
    MusicCog.remove (⟨[10, 20, 30], 0, false⟩ : SongQueue Nat) 5 =
      (none, ⟨[10, 20, 30], 0, false⟩) :=
  ⟨(c8_remove_at ⟨[10, 20, 30], 0, false⟩ 2 0 0 0 0 false).2.1 (by decide)
      (by decide),
   (c8_remove_at ⟨[10, 20, 30], 0, false⟩ 5 0 0 0 0 false).2.2
      (by decide)⟩

/-- C9 counterexample: track 4 is queued but nothing is current; stop()
returns false and leaves the queue untouched, so the queue is not emptied
although queued tracks existed. -/
theorem c9_counterexample :
    (APState.stop (run (APState.init Nat) [Event.enqueue 4 false])).2 =
      false ∧
    (APState.stop (run (APState.init Nat) [Event.enqueue 4 false])).1 =
      run (APState.init Nat) [Event.enqueue 4 false] ∧
    (run (APState.init Nat) [Event.enqueue 4 false]).song_queue.queue =
      [4] := by
  decide

/-- C9 amended: stop() returns true and clears the queue exactly when a
voice client is set and a song is current (is_currently_playing);
otherwise it returns false and changes nothing, in particular the queue
keeps its tracks when none is current.  When it does act and the player
thread was playing, the current song is retired and its play persisted;
when the player was paused, current_song is still cleared and the loop
advances, but the completion path's unconditional extra record_stop makes
create_song_play fail (the C10 TypeError), so no play is persisted. -/
theorem c9_amended (s : APState Nat) :
    (s.is_currently_playing = false → s.stop = (s, false)) ∧
    (s.is_currently_playing = true →
      s.stop.2 = true ∧ s.stop.1.song_queue.queue = [] ∧
      (s.voice_client = some VoiceStatus.playing →
        s.stop.1.current_song = none ∧
        s.stop.1.persisted_plays =
          s.persisted_plays ++ s.current_song.toList) ∧
      (s.voice_client = some VoiceStatus.paused →
        s.stop.1.current_song = none ∧
        s.stop.1.persisted_plays = s.persisted_plays)) := by
  constructor
  · intro h
    simp [APState.stop, h]
  · intro h
    unfold APState.stop
    rw [if_pos h]
    cases hv : s.voice_client with
    | none =>
      refine ⟨rfl, rfl, ?_, ?_⟩ <;> intro hva <;> simp at hva
    | some v =>
      cases v with
      | stopped =>
        refine ⟨rfl, rfl, ?_, ?_⟩ <;> intro hva <;> simp at hva
      | playing =>
        refine ⟨rfl, rfl, ?_, ?_⟩
        · intro _
          exact ⟨rfl, by simp [APState.play_next_song_ok, hv]⟩
        · intro hva
          simp at hva
      | paused =>
        refine ⟨rfl, rfl, ?_, ?_⟩
        · intro hva
          simp at hva
        · intro _
          exact ⟨rfl, by simp [APState.play_next_song_ok, hv]⟩

/-- Witness for c9_amended: stop on a player with nothing current, on one
playing song 3, and on one paused on song 3, each with track 4 queued:
the paused stop clears queue and current but persists nothing. -/
theorem c9_amended_witness :
    (⟨some VoiceStatus.stopped, none, ⟨[4], 0, false⟩, [],
        Phase.polling⟩ : APState Nat).stop =
      (⟨some VoiceStatus.stopped, none, ⟨[4], 0, false⟩, [],
        Phase.polling⟩, false) ∧
    (⟨some VoiceStatus.playing, some 3, ⟨[4], 0, false⟩, [],
        Phase.awaiting⟩ : APState Nat).stop.1.persisted_plays =
      ([] : List Nat) ++ (some 3 : Option Nat).toList ∧
    (⟨some VoiceStatus.paused, some 3, ⟨[4], 0, false⟩, [],
        Phase.awaiting⟩ : APState Nat).stop.2 = true ∧
    (⟨some VoiceStatus.paused, some 3, ⟨[4], 0, false⟩, [],
        Phase.awaiting⟩ : APState Nat).stop.1.song_queue.queue = [] ∧
    (⟨some VoiceStatus.paused, some 3, ⟨[4], 0, false⟩, [],
        Phase.awaiting⟩ : APState Nat).stop.1.current_song = none ∧
    (⟨some VoiceStatus.paused, some 3, ⟨[4], 0, false⟩, [],
        Phase.awaiting⟩ : APState Nat).stop.1.persisted_plays = [] :=
  have h1 := (c9_amended
    ⟨some VoiceStatus.stopped, none, ⟨[4], 0, false⟩, [],
      Phase.polling⟩).1 (by decide)
  have h2 := (c9_amended
    ⟨some VoiceStatus.playing, some 3, ⟨[4], 0, false⟩, [],
      Phase.awaiting⟩).2 (by decide)
  have h3 := (c9_amended
    ⟨some VoiceStatus.paused, some 3, ⟨[4], 0, false⟩, [],
      Phase.awaiting⟩).2 (by decide)
  ⟨h1, (h2.2.2.1 rfl).2, h3.1, h3.2.1, (h3.2.2.2 rfl).1, (h3.2.2.2 rfl).2⟩

end MusicBot
